import Mathlib

/-!
# Verification model of the ExpenseTracker repository

Shallow embedding of the tenant-scoped expense ledger server (`server.py`)
and the agent orchestration layer (`client.py`, `app.py`).

Conventions:
* Database rows of the `expenses` table become the structure `Row`; the
  database itself is a `List Row`.
* The external SQL engine is modelled denotationally: query strings built by
  the code are mirrored verbatim as `String` values, and the meaning of the
  constructed `SELECT` statement is given by an evaluator over a small
  fragment AST whose rendering is exactly the text the code appends.
* Fallible operations return `Except String α` (error text vs. result rows).
-/

namespace ExpenseTracker

/-- A row of the `expenses` table, as created by `init_db` in `server.py`:
`id UUID, user_id UUID, amount REAL, main_category TEXT, sub_category TEXT,
description TEXT, date DATE`.  UUIDs and dates are modelled as strings and
the amount as an integer (its arithmetic is irrelevant to the claims). -/
structure Row where
  id : String
  user_id : String
  amount : Int
  main_category : String
  sub_category : String
  description : String
  date : String
  deriving DecidableEq, Repr

/-- Does `ns` occur as a prefix of `hay`?  (Character-list level.) -/
def charListPrefix : List Char → List Char → Bool
  | [], _ => true
  | _ :: _, [] => false
  | a :: as, b :: bs => a == b && charListPrefix as bs

/-- Does `ns` occur as a contiguous sublist of the second argument?
This is the meaning of Python's `needle in hay` on strings. -/
def charListOccurs (ns : List Char) : List Char → Bool
  | [] => ns.isEmpty
  | b :: bs => charListPrefix ns (b :: bs) || charListOccurs ns bs

/-- Python's substring test `needle in hay`. -/
def strOccurs (needle hay : String) : Bool :=
  charListOccurs needle.data hay.data

/-- Python's `str.upper()`: character-wise uppercasing (it agrees with
`Char.toUpper` on the ASCII texts involved here). -/
def strUpper (s : String) : String :=
  ⟨s.data.map Char.toUpper⟩

/-- The query text built by `run_secure_query` (`server.py`):
`f"SELECT * FROM expenses WHERE user_id = '\x7buser_id\x7d' \x7bsql_logic\x7d"`.
Note that `user_id` is interpolated directly into the text. -/
def full_query (user_id sql_logic : String) : String :=
  "SELECT * FROM expenses WHERE user_id = \x27" ++ user_id ++ "\x27 " ++ sql_logic

/-- The "basic safety check" of `run_secure_query`:
`"DROP" in sql_logic.upper() or "DELETE" in sql_logic.upper() or
"UPDATE" in sql_logic.upper()`.  Only these three verbs are tested. -/
def bannedVerbCheck (sql_logic : String) : Bool :=
  strOccurs "DROP" (strUpper sql_logic) ||
  strOccurs "DELETE" (strUpper sql_logic) ||
  strOccurs "UPDATE" (strUpper sql_logic)

/-- The error text returned by the verb check of `run_secure_query`. -/
def readOnlyError : String := "Error: This tool is for Read-Only analysis."

/-- Text columns of `expenses` that a model-supplied condition may mention. -/
inductive SqlField where
  | userIdCol
  | mainCategoryCol
  | subCategoryCol
  | descriptionCol
  deriving DecidableEq, Repr

/-- SQL rendering of a column name. -/
def SqlField.render : SqlField → String
  | .userIdCol => "user_id"
  | .mainCategoryCol => "main_category"
  | .subCategoryCol => "sub_category"
  | .descriptionCol => "description"

/-- Value of a column in a row. -/
def Row.col : Row → SqlField → String
  | r, .userIdCol => r.user_id
  | r, .mainCategoryCol => r.main_category
  | r, .subCategoryCol => r.sub_category
  | r, .descriptionCol => r.description

/-- An atomic SQL condition usable inside a model-supplied fragment. -/
inductive SqlCond where
  | boolLit (b : Bool)
  | eqCol (f : SqlField) (v : String)
  deriving DecidableEq, Repr

/-- SQL rendering of a condition. -/
def SqlCond.render : SqlCond → String
  | .boolLit true => "TRUE"
  | .boolLit false => "FALSE"
  | .eqCol f v => f.render ++ " = \x27" ++ v ++ "\x27"

/-- Truth value of a condition on a row (standard SQL semantics). -/
def SqlCond.eval : SqlCond → Row → Bool
  | .boolLit b, _ => b
  | .eqCol f v, r => r.col f == v

/-- A model-supplied `sql_logic` fragment, as the tool documentation invites
("the SQL conditions/aggregations AFTER the WHERE"): nothing, a conjunct, a
disjunct, or a row-count clause.  `render` gives the exact text appended to
the query by `run_secure_query`. -/
inductive SqlFrag where
  | empty
  | andCond (c : SqlCond)
  | orCond (c : SqlCond)
  | limitClause (n : Nat)
  deriving DecidableEq, Repr

/-- The text of a fragment, as it appears in `sql_logic`. -/
def SqlFrag.render : SqlFrag → String
  | .empty => ""
  | .andCond c => "AND " ++ c.render
  | .orCond c => "OR " ++ c.render
  | .limitClause n => "LIMIT " ++ toString n

/-- Standard SQL meaning of the WHERE clause of
`full_query user_id frag.render`, namely of the text
`user_id = '<user_id>' <fragment>`: `AND` binds tighter than `OR`, so an
`OR` fragment escapes the tenant filter.  (Denotation of the external
database engine; assumes the interpolated `user_id` value contains no
quote character, which is the case in all inputs considered here.) -/
def whereEval (user_id : String) (frag : SqlFrag) (r : Row) : Bool :=
  match frag with
  | .empty => r.user_id == user_id
  | .limitClause _ => r.user_id == user_id
  | .andCond c => r.user_id == user_id && c.eval r
  | .orCond c => r.user_id == user_id || c.eval r

/-- Result rows of executing `full_query user_id frag.render` against `db`:
filter by the WHERE clause, then apply a `LIMIT` if the fragment has one. -/
def execSelect (db : List Row) (user_id : String) (frag : SqlFrag) : List Row :=
  match frag with
  | .limitClause n => (db.filter (whereEval user_id frag)).take n
  | _ => db.filter (whereEval user_id frag)

/-- `run_secure_query` from `server.py`, up to result formatting: builds
`full_query`, applies `bannedVerbCheck` to `sql_logic`, and only if the
check passes executes the query, returning its rows.  (The source then
renders the rows as a markdown table; the claims are about the rows.) -/
def run_secure_query (db : List Row) (user_id : String) (sql_logic : SqlFrag) :
    Except String (List Row) :=
  if bannedVerbCheck sql_logic.render then
    Except.error readOnlyError
  else
    Except.ok (execSelect db user_id sql_logic)

/-- The query text sent by `summarize_expenses` (`server.py`): a fixed
string with a `%s` placeholder; the tenant identifier is passed separately
as a bound parameter, so the text does not depend on it. -/
def summarize_query (_user_id : String) : String :=
  "SELECT main_category, SUM(amount) FROM expenses WHERE user_id = %s GROUP BY main_category"

/-- Distinct `main_category` values of a row list, in order of first
occurrence (the grouping keys of `GROUP BY main_category`). -/
def distinctCategories (rows : List Row) : List String :=
  rows.foldl (fun acc r => if acc.contains r.main_category then acc else acc ++ [r.main_category]) []

/-- `summarize_expenses` from `server.py`, up to report formatting: the
per-`main_category` sums of `amount` over exactly the rows whose `user_id`
equals the bound parameter. -/
def summarize_expenses (db : List Row) (user_id : String) : List (String × Int) :=
  let mine := db.filter (fun r => r.user_id == user_id)
  (distinctCategories mine).map
    (fun c => (c, ((mine.filter (fun r => r.main_category == c)).map Row.amount).sum))

/-- `add_expense` from `server.py`.  `freshId` is the UUID the database
assigns to the inserted row (`RETURNING id`), `today` is
`datetime.now().strftime("%Y-%m-%d")` at invocation time.  Python's
`if not date:` treats both `None` and the empty string as absent.
Returns the result text and the updated table. -/
def add_expense (db : List Row) (freshId today user_id : String) (amount : Int)
    (main_category sub_category description : String) (date : Option String) :
    String × List Row :=
  let d := match date with
    | none => today
    | some s => if s.isEmpty then today else s
  ("✅ Saved. ID: " ++ freshId,
    db ++ [⟨freshId, user_id, amount, main_category, sub_category, description, d⟩])

/-- The error text of `delete_expense` for a missing or non-owned row. -/
def deleteNotFoundError : String := "Error: Expense not found or you don\x27t own it."

/-- `delete_expense` from `server.py`: `DELETE FROM expenses WHERE id = %s
AND user_id = %s RETURNING id`; if a row was returned the deletion is
committed and a success text returned, otherwise the connection is closed
without commit (no row matched, the table is unchanged) and the single
not-found-or-not-owned error text is returned. -/
def delete_expense (db : List Row) (user_id expense_id : String) : String × List Row :=
  let hit := db.filter (fun r => r.id == expense_id && r.user_id == user_id)
  if hit.isEmpty then
    (deleteNotFoundError, db)
  else
    ("🗑️ Expense deleted successfully.",
      db.filter (fun r => !(r.id == expense_id && r.user_id == user_id)))

/-- One model-provider response in the agent loop of `client.py` /
`app.py`: a batch of proposed tool calls (by name; arguments are irrelevant
to the termination claims) and the response text. -/
structure ModelResponse where
  function_calls : List String
  text : String
  deriving DecidableEq, Repr

/-- The agentic loop of `client.py` (`while response.function_calls: ...
response = chat.send_message(parts)`), identical in `app.py`'s `run_agent`.
`provider k` is the model's response at round `k` (round 0 answers the user
prompt, later rounds answer fed-back tool results).  The source loop has no
round counter; `fuel` is the observation depth: `none` means the loop is
still running after `fuel` rounds, `some t` means it finished with final
text `t` within them. -/
def agentLoopAux (provider : Nat → ModelResponse) : Nat → Nat → Option String
  | _, 0 => none
  | k, fuel + 1 =>
    if (provider k).function_calls.isEmpty then some (provider k).text
    else agentLoopAux provider (k + 1) fuel

/-- The loop observed from its first round. -/
def agentLoop (provider : Nat → ModelResponse) (fuel : Nat) : Option String :=
  agentLoopAux provider 0 fuel

/-- "There is a configured maximum number of tool-call rounds after which
every exchange has terminated, whatever the model does":  some bound `N`
such that against every provider the loop has produced its final answer
within `N` rounds. -/
def loopHasRoundBound : Prop :=
  ∃ N, ∀ provider : Nat → ModelResponse, (agentLoop provider N).isSome = true

/-- Role of a turn in `st.session_state.messages` (`app.py`). -/
inductive Role where
  | user
  | assistant
  deriving DecidableEq, BEq, Repr

/-- One turn of the conversation history (`app.py` message dict). -/
structure Msg where
  role : Role
  content : String
  deriving DecidableEq, Repr

/-- One exchange as recorded by the chat handler in `app.py`: the user
prompt is appended first; the assistant turn is appended only when
`run_agent` returned a final answer (`outcome = some answer`), while an
exchange that raised an exception (`outcome = none`) appends nothing more. -/
def recordExchange (messages : List Msg) (prompt : String) (outcome : Option String) :
    List Msg :=
  match outcome with
  | some answer => messages ++ [⟨Role.user, prompt⟩] ++ [⟨Role.assistant, answer⟩]
  | none => messages ++ [⟨Role.user, prompt⟩]

/-- A session: the exchanges recorded one after the other, each a prompt
paired with its outcome. -/
def runExchanges (messages : List Msg) (xs : List (String × Option String)) : List Msg :=
  xs.foldl (fun acc x => recordExchange acc x.1 x.2) messages

/-- The history replay of `run_agent` (`app.py`):
`for m in st.session_state.messages[:-1]` with
`role = "model" if m["role"]=="assistant" else "user"`; each retained turn
becomes a provider message of that role with the same content. -/
def historyForNewExchange (messages : List Msg) : List (String × String) :=
  messages.dropLast.map
    (fun m => (if m.role == Role.assistant then "model" else "user", m.content))

/-- Modelled from the spec: `historyForNewExchange() -> ordered sequence of
Turn` = all turns except the most recent (the first `length - 1` turns, in
order), with each role translated to the provider vocabulary: assistant
turns to the model-authored role, user turns to the user role. -/
def specHistoryForNewExchange (messages : List Msg) : List (String × String) :=
  (messages.take (messages.length - 1)).map
    (fun m =>
      (match m.role with
       | Role.assistant => "model"
       | Role.user => "user",
       m.content))

/-- A row owned by tenant "A". -/
def rowA : Row := ⟨"e1", "A", 100, "Food", "Dining", "lunch", "2026-01-01"⟩

/-- A row owned by tenant "B". -/
def rowB : Row := ⟨"e2", "B", 200, "Travel", "Taxi", "ride", "2026-01-02"⟩

/-- A row of tenant "A" whose description is the word "insert". -/
def rowIns : Row := ⟨"e3", "A", 50, "Misc", "misc", "insert", "2026-01-03"⟩

/-- The fragment `OR TRUE`. -/
def orTrueFrag : SqlFrag := SqlFrag.orCond (SqlCond.boolLit true)

/-- The fragment `AND description = 'insert'`. -/
def insertFrag : SqlFrag := SqlFrag.andCond (SqlCond.eqCol SqlField.descriptionCol "insert")

/-- The fragment `AND description = 'drop'`. -/
def dropFrag : SqlFrag := SqlFrag.andCond (SqlCond.eqCol SqlField.descriptionCol "drop")

/-- Claim C1: the sandboxed query built by `run_secure_query` with tenant
A's identifier is claimed never to return a row of another tenant B,
regardless of `sql_logic`.  The code violates this (contradicting its own
comment "This makes it physically impossible to see other users' data"):
with `sql_logic = "OR TRUE"` the WHERE clause is
`user_id = 'A' OR TRUE`, which matches every row, so tenant B's row is
returned to tenant A. -/
theorem C1_cross_tenant_leak :
    bannedVerbCheck orTrueFrag.render = false ∧
    run_secure_query [rowA, rowB] "A" orTrueFrag = Except.ok [rowA, rowB] ∧
    rowB.user_id = "B" ∧ "A" ≠ "B" := by
  refine ⟨by decide, rfl, rfl, by decide⟩

/-- Claim C2 fails on the code: only DROP, DELETE and UPDATE are tested by
the safety check.  The fragment `AND description = 'insert'` contains the
verb INSERT case-insensitively, yet `run_secure_query` executes the query
and returns rows instead of an error. -/
theorem C2_counterexample_insert_executes :
    strOccurs "INSERT" (strUpper insertFrag.render) = true ∧
    run_secure_query [rowA, rowB, rowIns] "A" insertFrag = Except.ok [rowIns] :=
  ⟨by decide, rfl⟩

/-- Claim C2 (amended): `run_secure_query` rejects `sql_logic` with an
error, without executing the query, whenever the uppercased fragment
contains DROP, DELETE or UPDATE as a substring; the remaining three verbs
INSERT, ALTER and TRUNCATE of the claim are not checked. -/
theorem C2_amended_three_verbs (db : List Row) (uid : String) (frag : SqlFrag)
    (h : strOccurs "DROP" (strUpper frag.render) = true ∨
         strOccurs "DELETE" (strUpper frag.render) = true ∨
         strOccurs "UPDATE" (strUpper frag.render) = true) :
    run_secure_query db uid frag = Except.error readOnlyError := by
  have hb : bannedVerbCheck frag.render = true := by
    unfold bannedVerbCheck
    rcases h with h | h | h <;> simp [h]
  simp [run_secure_query, hb]

/-- Claim C2 (amended), witness: the fragment `AND description = 'drop'`
contains DROP case-insensitively and is rejected unexecuted. -/
theorem C2_amended_three_verbs_witness :
    strOccurs "DROP" (strUpper dropFrag.render) = true ∧
    run_secure_query [rowA] "A" dropFrag = Except.error readOnlyError :=
  ⟨by decide, C2_amended_three_verbs [rowA] "A" dropFrag (Or.inl (by decide))⟩

/-- Claim C5 fails on the code: the executable query text is not
independent of the tenant identifier — `run_secure_query` interpolates
`user_id` into the text instead of binding it as a parameter, so two tenant
identifiers already yield different texts for the same `sql_logic`. -/
theorem C5_counterexample_text_depends_on_tenant :
    full_query "A" "" ≠ full_query "B" "" := by decide

/-- Claim C5 (amended): the tenant identifier is string-interpolated into
the query text, not parameter-bound: for every `sql_logic`, distinct tenant
identifiers produce distinct query texts. -/
theorem C5_amended_interpolated (uid1 uid2 s : String) (h : uid1 ≠ uid2) :
    full_query uid1 s ≠ full_query uid2 s := by
  intro he
  apply h
  have hd : (full_query uid1 s).data = (full_query uid2 s).data := by rw [he]
  simp only [full_query, String.data_append, List.append_assoc] at hd
  have h1 := List.append_cancel_left hd
  rw [← List.append_assoc, ← List.append_assoc] at h1
  have h2 := List.append_cancel_right h1
  exact String.ext (List.append_cancel_right h2)

/-- Claim C5 (amended), witness at tenants "A" and "B". -/
theorem C5_amended_interpolated_witness :
    ("A" : String) ≠ "B" ∧ full_query "A" "X" ≠ full_query "B" "X" :=
  ⟨by decide, C5_amended_interpolated "A" "B" "X" (by decide)⟩

/-- A ledger of 21 rows, all owned by tenant "A". -/
def db21 : List Row := List.replicate 21 rowA

/-- Claim C6 fails on the code: with an empty `sql_logic` (no LIMIT
clause), the built query text contains no LIMIT at all and the result set
is not bounded by 20 — a 21-row ledger comes back whole. -/
theorem C6_counterexample_no_default_cap :
    strOccurs "LIMIT" (strUpper (full_query "A" "")) = false ∧
    run_secure_query db21 "A" SqlFrag.empty = Except.ok db21 ∧
    db21.length = 21 :=
  ⟨by decide, rfl, by decide⟩

/-- Claim C6 (amended): the sandbox imposes no default row cap: when
`sql_logic` carries no LIMIT clause (the empty fragment), `run_secure_query`
returns every row of the tenant, however many there are. -/
theorem C6_amended_all_rows_returned (db : List Row) (uid : String) :
    run_secure_query db uid SqlFrag.empty =
      Except.ok (db.filter (fun r => r.user_id == uid)) := rfl

/-- A misbehaving model provider that proposes a tool call in every round. -/
def alwaysCalling : Nat → ModelResponse := fun _ => ⟨["add_expense"], ""⟩

lemma agentLoopAux_alwaysCalling (fuel : Nat) :
    ∀ k, agentLoopAux alwaysCalling k fuel = none := by
  induction fuel with
  | zero => intro k; rfl
  | succ n ih => intro k; simp [agentLoopAux, alwaysCalling, ih]

/-- Claim C3 fails on the code: the agent loop of `client.py` / `app.py`
has no round bound at all — against a provider that proposes tool calls in
every round, no number of rounds suffices for the loop to produce a final
answer, so no configured maximum can exist. -/
theorem C3_counterexample_unbounded : ¬ loopHasRoundBound := by
  intro h
  obtain ⟨N, hN⟩ := h
  simpa [agentLoop, agentLoopAux_alwaysCalling] using hN alwaysCalling

lemma agentLoopAux_isSome (provider : Nat → ModelResponse) :
    ∀ fuel j k, j ≤ k → k < j + fuel → (provider k).function_calls = [] →
      (agentLoopAux provider j fuel).isSome = true := by
  intro fuel
  induction fuel with
  | zero => intro j k hjk hk _; omega
  | succ n ih =>
    intro j k hjk hk hcalls
    by_cases hj : (provider j).function_calls.isEmpty
    · simp [agentLoopAux, hj]
    · have hne : j ≠ k := by
        intro e
        rw [e, hcalls] at hj
        simp at hj
      have hrec : (agentLoopAux provider (j + 1) n).isSome = true :=
        ih (j + 1) k (by omega) (by omega) hcalls
      simpa [agentLoopAux, hj] using hrec

/-- Claim C3 (amended): the loop enforces no round bound; it terminates
exactly when the model stops proposing calls — if the provider returns a
response with no tool calls at some round `k`, the loop yields a final
answer within any `fuel > k` rounds (while `C3_counterexample_unbounded`
shows a provider proposing calls forever keeps it running indefinitely). -/
theorem C3_amended_terminates_when_model_stops (provider : Nat → ModelResponse)
    (k fuel : Nat) (hk : (provider k).function_calls = []) (hf : k < fuel) :
    (agentLoop provider fuel).isSome = true :=
  agentLoopAux_isSome provider fuel 0 k (Nat.zero_le k) (by omega) hk

/-- A provider that answers immediately with no tool calls. -/
def stopAtZero : Nat → ModelResponse :=
  fun n => if n = 0 then ⟨[], "done"⟩ else ⟨["t"], ""⟩

/-- Claim C3 (amended), witness: a provider silent from round 0 makes the
loop finish within one round. -/
theorem C3_amended_witness :
    (stopAtZero 0).function_calls = [] ∧ (0 : Nat) < 1 ∧
    (agentLoop stopAtZero 1).isSome = true :=
  ⟨rfl, by decide, C3_amended_terminates_when_model_stops stopAtZero 0 1 rfl (by decide)⟩

/-- Claim C4: when no row has both the requested id and the caller's
tenant identifier — the id does not exist, or it belongs to another tenant,
indistinguishably — `delete_expense` returns the single
not-found-or-not-permitted text and leaves the table unchanged. -/
theorem C4_delete_missing_or_foreign (db : List Row) (uid eid : String)
    (h : ∀ r ∈ db, ¬(r.id = eid ∧ r.user_id = uid)) :
    delete_expense db uid eid = (deleteNotFoundError, db) := by
  have hfilter : db.filter (fun r => r.id == eid && r.user_id == uid) = [] := by
    rw [List.filter_eq_nil_iff]
    intro r hr
    simp only [Bool.and_eq_true, beq_iff_eq]
    exact h r hr
  simp [delete_expense, hfilter]

/-- A row with id "5" owned by tenant "B". -/
def rowB5 : Row := ⟨"5", "B", 999, "Misc", "misc", "other", "2026-01-05"⟩

/-- Claim C4, witness: tenant "A" deleting id "5" owned by "B", and
deleting the non-existent id "77", both get the same error text and an
unchanged table. -/
theorem C4_delete_witness :
    delete_expense [rowB5] "A" "5" = (deleteNotFoundError, [rowB5]) ∧
    delete_expense [rowB5] "A" "77" = (deleteNotFoundError, [rowB5]) :=
  ⟨C4_delete_missing_or_foreign [rowB5] "A" "5" (by decide),
   C4_delete_missing_or_foreign [rowB5] "A" "77" (by decide)⟩

lemma recordExchange_length (m : List Msg) (p : String) (o : Option String) :
    (recordExchange m p o).length =
      m.length + (match o with | some _ => 2 | none => 1) := by
  cases o <;> simp [recordExchange]

lemma runExchanges_cons (m : List Msg) (a : String × Option String)
    (t : List (String × Option String)) :
    runExchanges m (a :: t) = runExchanges (recordExchange m a.1 a.2) t := rfl

lemma runExchanges_append (m : List Msg) (xs ys : List (String × Option String)) :
    runExchanges m (xs ++ ys) = runExchanges (runExchanges m xs) ys := by
  simp [runExchanges, List.foldl_append]

lemma runExchanges_length_completed (xs : List (String × Option String)) :
    ∀ m : List Msg, (∀ x ∈ xs, (x.2).isSome = true) →
      (runExchanges m xs).length = m.length + 2 * xs.length := by
  induction xs with
  | nil => intro m _; simp [runExchanges]
  | cons a t ih =>
    intro m h
    rw [runExchanges_cons]
    obtain ⟨v, hv⟩ := Option.isSome_iff_exists.mp (h a (by simp))
    have ht : ∀ x ∈ t, (x.2).isSome = true := fun x hx => h x (by simp [hx])
    rw [ih (recordExchange m a.1 a.2) ht, recordExchange_length]
    simp only [hv, List.length_cons]
    omega

/-- Claim C7: starting from an empty history, `K` completed exchanges
leave exactly `2K` turns (user then assistant, once each, in order), and a
final exchange that fails before producing an answer still records its user
turn but no assistant turn, leaving `2(K+1) - 1` turns. -/
theorem C7_history_length (xs : List (String × Option String)) (p : String)
    (h : ∀ x ∈ xs, (x.2).isSome = true) :
    (runExchanges [] xs).length = 2 * xs.length ∧
    (runExchanges [] (xs ++ [(p, none)])).length = 2 * (xs.length + 1) - 1 := by
  have h1 := runExchanges_length_completed xs [] h
  constructor
  · simpa using h1
  · rw [runExchanges_append]
    have h2 : runExchanges (runExchanges [] xs) [(p, none)] =
        recordExchange (runExchanges [] xs) p none := rfl
    rw [h2, recordExchange_length]
    simp only [List.length_nil, Nat.zero_add] at h1
    simp only [List.length_append, List.length_cons, List.length_nil]
    omega

/-- Claim C7, witness: one completed exchange gives 2 turns; a following
failed exchange gives 3 = 2·2 − 1 turns. -/
theorem C7_history_length_witness :
    (∀ x ∈ [(("hi" : String), some "hello")], (x.2).isSome = true) ∧
    (runExchanges [] [(("hi" : String), some "hello")]).length = 2 * 1 ∧
    (runExchanges [] ([(("hi" : String), some "hello")] ++ [("oops", none)])).length
      = 2 * (1 + 1) - 1 := by
  refine ⟨by decide, ?_, ?_⟩
  · simpa using (C7_history_length [("hi", some "hello")] "oops" (by decide)).1
  · simpa using (C7_history_length [("hi", some "hello")] "oops" (by decide)).2

/-- Claim C8: the history replayed into a new model exchange is exactly all
turns but the most recent, in order, with assistant turns translated to the
provider's model-authored role and user turns to the user role — the
source's slice-and-translate (`historyForNewExchange`) coincides with the
spec-worded reconstruction (`specHistoryForNewExchange`). -/
theorem C8_history_refinement (messages : List Msg) :
    historyForNewExchange messages = specHistoryForNewExchange messages := by
  unfold historyForNewExchange specHistoryForNewExchange
  rw [List.dropLast_eq_take]
  have hfg : (fun m : Msg => ((if m.role == Role.assistant then "model" else "user" : String), m.content))
      = fun m : Msg =>
          ((match m.role with
            | Role.assistant => "model"
            | Role.user => "user" : String), m.content) := by
    funext m
    cases m with
    | mk r c => cases r <;> rfl
  rw [hfg]

/-- Claim C9: an `add_expense` call without a date inserts a row dated with
the invocation-time current date, and every add invocation returns a result
text containing the newly assigned row identifier (as its final segment). -/
theorem C9_add_expense_defaults (db : List Row) (fid today uid : String) (amt : Int)
    (mc sc dsc : String) :
    (add_expense db fid today uid amt mc sc dsc none).2
        = db ++ [⟨fid, uid, amt, mc, sc, dsc, today⟩] ∧
    ∀ d : Option String, ∃ pre,
      (add_expense db fid today uid amt mc sc dsc d).1 = pre ++ fid :=
  ⟨rfl, fun _ => ⟨"✅ Saved. ID: ", rfl⟩⟩

/-- Claim C10: `summarize_expenses` sends a fixed query text (the tenant
identifier is a bound parameter, so the text is the same for every tenant),
and its per-category totals depend only on the calling tenant's rows: two
ledgers agreeing on the tenant's rows summarize identically. -/
theorem C10_summary_tenant_scoped (db db2 : List Row) (uid u1 u2 : String)
    (h : db.filter (fun r => r.user_id == uid) = db2.filter (fun r => r.user_id == uid)) :
    summarize_expenses db uid = summarize_expenses db2 uid ∧
    summarize_query u1 = summarize_query u2 := by
  constructor
  · unfold summarize_expenses
    rw [h]
  · rfl

/-- Claim C10, witness: adding tenant "B"'s row to the ledger does not
change tenant "A"'s summary. -/
theorem C10_summary_witness :
    List.filter (fun r => r.user_id == "A") [rowA, rowB]
        = List.filter (fun r => r.user_id == "A") [rowA] ∧
    summarize_expenses [rowA, rowB] "A" = summarize_expenses [rowA] "A" :=
  ⟨by decide, (C10_summary_tenant_scoped [rowA, rowB] [rowA] "A" "x" "y" (by decide)).1⟩

end ExpenseTracker
